import Mathlib

/-!
Verification model of the deep-research orchestration engine
(`app.py` and `streamlit_app.py`).

The two source files implement the same pipeline: clarify a topic,
plan a research goal plus search queries, loop over web searches until a
model judgment says the goal is satisfied, then generate a report.
Every stage issues blocking calls to the OpenAI responses API
(`client.responses.create`).  We embed the gateway as a pure oracle
`Call → Response` inside an `Env`, together with a `loads` oracle
modelling the Python `json` library.  Each embedded stage function
returns its result paired with the list of gateway calls it issued, so
that invariants about which calls were made (and with which continuation
token) can be stated and proved.  The unbounded convergence loop
(`for _ in itertools.count()`) is modelled with explicit fuel; fuel
exhaustion is a modelling artifact distinct from any program behaviour.

Fallible Python operations (list indexing, `json.loads`, dict lookup)
are modelled with `Except Err`.
-/

/-- Model of one content item of an OpenAI response output block
(`.text` field access in the scripts). -/
structure ContentItem where
  text : String
deriving DecidableEq

/-- Model of one output block of an OpenAI response (`resp.output[i]`). -/
structure OutputBlock where
  content : List ContentItem
deriving DecidableEq

/-- Model of an OpenAI response: its output blocks and its response id
(the continuation token, `resp.id`). -/
structure Response where
  output : List OutputBlock
  id : String
deriving DecidableEq

/-- Model of the `input` argument of `client.responses.create`: either a
plain prompt string or a list of role/content messages. -/
inductive CallInput where
  | text (s : String)
  | msgs (ms : List (String × String))
deriving DecidableEq

/-- Model of one call to `client.responses.create`, recording every
argument the scripts pass: model name, input, instructions, the
`previous_response_id` continuation token, and whether the web-search
tool list `TOOLS` was attached. -/
structure Call where
  model : String
  input : CallInput
  instructions : String
  previous_response_id : Option String
  tools : Bool
deriving DecidableEq

/-- Model of a parsed JSON value, as produced by Python `json.loads`.
Objects are represented as ordered key/value lists. -/
inductive Json where
  | null
  | bool (b : Bool)
  | num (n : Int)
  | str (s : String)
  | arr (elems : List Json)
  | obj (fields : List (String × Json))

/-- Python dict subscript `j[k]` on a parsed JSON value: `none` models
both a `KeyError` (missing key) and a `TypeError` (subscripting a
non-object), which the scripts let propagate as structural failures. -/
def Json.lookup (j : Json) (k : String) : Option Json :=
  match j with
  | .obj fields => List.lookup k fields
  | _ => none

/-- Extraction of a JSON string payload. -/
def Json.asString (j : Json) : Option String :=
  match j with
  | .str s => some s
  | _ => none

/-- Extraction of a JSON list-of-strings payload, as the scripts expect
from the planning and query-regeneration replies.  Any other shape is a
structural mismatch. -/
def Json.asStringList (j : Json) : Option (List String) :=
  match j with
  | .arr elems => elems.mapM (fun e => match e with | .str s => some s | _ => none)
  | _ => none

/-- Environment of external collaborators: the Language Model Gateway
(`create c` is the response the OpenAI API returns to call `c`, a pure
oracle fixing one execution's replies) and the Python `json.loads`
parser (`loads t = none` models a `JSONDecodeError`). -/
structure Env where
  create : Call → Response
  loads : String → Option Json

/-- Failure modes of the embedded code.  `indexError`, `keyError`,
`jsonDecodeError` and `typeError` model the Python exceptions the
scripts let propagate; `fuelExhausted` is the modelling artifact for an
execution of the unbounded research loop that has not returned within
the given fuel. -/
inductive Err where
  | indexError
  | keyError
  | jsonDecodeError
  | typeError
  | fuelExhausted
deriving DecidableEq

/-- A collected search record, `{"query": query, "resp_id": ...}` as
built by `run_search`. -/
structure Artifact where
  query : String
  resp_id : String
deriving DecidableEq

/-- Python `resp.output[0].content[0].text`, the reply-text extraction
used by every stage except `run_search`; `none` models the
`IndexError` on a reply with no output block or no content item. -/
def firstText (resp : Response) : Option String :=
  (resp.output.get? 0).bind (fun b => (b.content.get? 0).map (fun item => item.text))

/-- Substring test on character lists: Python `pat in s` for strings. -/
def containsSub (pat : List Char) : List Char → Bool
  | [] => pat.isEmpty
  | c :: rest => pat.isPrefixOf (c :: rest) || containsSub pat rest

/-- Modelled from the Python standard library: the whitespace characters
`str.strip()` removes (ASCII portion). -/
def pySpace (c : Char) : Bool :=
  c = ' ' || c = '\t' || c = '\n' || c = '\r' || c = '\x0b' || c = '\x0c'

/-- Modelled from the Python standard library: `s.strip()`, removing
leading and trailing whitespace. -/
def pyStrip (s : String) : String :=
  ⟨(((s.data.dropWhile pySpace).reverse.dropWhile pySpace).reverse : List Char)⟩

/-- Modelled from the Python standard library: ASCII lower-casing of one
character, as `str.lower()` acts on the characters that occur here. -/
def pyLowerChar (c : Char) : Char :=
  if c = 'A' then 'a' else if c = 'B' then 'b' else if c = 'C' then 'c'
  else if c = 'D' then 'd' else if c = 'E' then 'e' else if c = 'F' then 'f'
  else if c = 'G' then 'g' else if c = 'H' then 'h' else if c = 'I' then 'i'
  else if c = 'J' then 'j' else if c = 'K' then 'k' else if c = 'L' then 'l'
  else if c = 'M' then 'm' else if c = 'N' then 'n' else if c = 'O' then 'o'
  else if c = 'P' then 'p' else if c = 'Q' then 'q' else if c = 'R' then 'r'
  else if c = 'S' then 's' else if c = 'T' then 't' else if c = 'U' then 'u'
  else if c = 'V' then 'v' else if c = 'W' then 'w' else if c = 'X' then 'x'
  else if c = 'Y' then 'y' else if c = 'Z' then 'z' else c

/-- Modelled from the Python standard library: `s.lower()`. -/
def pyLower (s : String) : String :=
  ⟨s.data.map pyLowerChar⟩

/-- Split of a character list at every occurrence of a separator
character, keeping empty segments, as Python `s.split(sep)` does for a
one-character separator. -/
def splitChar (sep : Char) : List Char → List (List Char)
  | [] => [[]]
  | c :: rest =>
    let r := splitChar sep rest
    if c = sep then [] :: r
    else
      match r with
      | [] => [[c]]
      | l :: ls => (c :: l) :: ls

/-- Modelled from the Python standard library: `s.split("\n")`. -/
def pySplitLines (s : String) : List String :=
  (splitChar '\n' s.data).map (fun l => ⟨l⟩)

/-- Escape of one character inside a JSON string literal, modelling the
Python `json.dumps` string encoder on the characters that occur here. -/
def jsonEscapeChar (c : Char) : String :=
  if c = '\\' then "\\\\"
  else if c = '\"' then "\\\""
  else if c = '\n' then "\\n"
  else if c = '\r' then "\\r"
  else if c = '\t' then "\\t"
  else String.singleton c

/-- Escape of a whole string for a JSON string literal. -/
def jsonEscape (s : String) : String :=
  String.join (s.data.map jsonEscapeChar)

/-- Modelled from the Python standard library: `json.dumps` on a string. -/
def dumps_string (s : String) : String :=
  "\"" ++ jsonEscape s ++ "\""

/-- Modelled from the Python standard library: `json.dumps` on one
collected record `{"query": ..., "resp_id": ...}` (dicts keep insertion
order). -/
def dumps_artifact (a : Artifact) : String :=
  "\x7b\"query\": " ++ dumps_string a.query ++ ", \"resp_id\": " ++ dumps_string a.resp_id ++ "\x7d"

/-- Modelled from the Python standard library: `json.dumps(collected)`
for the collected list of search records. -/
def dumps (collected : List Artifact) : String :=
  "[" ++ String.intercalate ", " (collected.map dumps_artifact) ++ "]"

/-- Python f-string rendering of a list of strings (`repr` form), used
when the scripts interpolate `answers` and `questions` into the plan
prompt. -/
def pyReprList (xs : List String) : String :=
  "[" ++ String.intercalate ", " (xs.map (fun s => "\x27" ++ s ++ "\x27")) ++ "]"

/-- Model name constant `MODEL` of both scripts. -/
def MODEL : String := "gpt-4.1"

/-- Model name constant `MODEL_MINI` of both scripts. -/
def MODEL_MINI : String := "gpt-4.1-mini"

/-- The developer/system message of both scripts (the streamlit variant
differs only in surrounding newlines, which no claim observes). -/
def DEVELOPER_MESSAGE : String :=
  "You are an expert Deep Researcher.\nYou provide complete and in depth research to the user."

/-- The clarification prompt built by `ask_clarifying_questions`. -/
def clarify_prompt (topic : String) : String :=
  "Ask 5 numbered clarifying questions about the topic of research: " ++ topic ++
  ". The goal of the questions is to understand the intented purpose of the research. " ++
  "Reply only with the questions."

/-- The gateway call issued by `ask_clarifying_questions` (lighter model
tier, no continuation, no tools). -/
def clarify_call (topic : String) : Call :=
  { model := MODEL_MINI, input := .text (clarify_prompt topic),
    instructions := DEVELOPER_MESSAGE, previous_response_id := none, tools := false }

/-- The planning prompt built by `create_plan` / `generate_plan`. -/
def plan_prompt (topic : String) (questions answers : List String) : String :=
  "Using the user answers " ++ pyReprList answers ++ " to the " ++ pyReprList questions ++
  ", write a goal sentence and 5 web searches queries for the research about " ++ topic ++ " \n" ++
  "Output: A json list of the goal and the 5 web queries that will reach it.\n" ++
  "Format: \x7b\"goal\": \"...\", \"queries\": [\"q1\", ....]\x7d"

/-- The gateway call issued by `create_plan` / `generate_plan`,
continuing from the clarification token `prev_id`. -/
def plan_call (topic : String) (questions answers : List String) (prev_id : String) : Call :=
  { model := MODEL, input := .text (plan_prompt topic questions answers),
    instructions := DEVELOPER_MESSAGE, previous_response_id := some prev_id, tools := false }

/-- The gateway call issued by `run_search` for one query: the only call
with the web-search tool attached, continuing from `prev_id`. -/
def search_call (query : String) (prev_id : String) : Call :=
  { model := MODEL, input := .text ("search: " ++ query),
    instructions := DEVELOPER_MESSAGE, previous_response_id := some prev_id, tools := true }

/-- The gateway call issued by `evaluate_progress` / `evaluate`: the
goal and the serialized collected set as messages, no continuation. -/
def eval_call (goal : String) (collected : List Artifact) : Call :=
  { model := MODEL,
    input := .msgs [("developer", "Research goal: " ++ goal),
                    ("assistant", dumps collected),
                    ("user", "Does this information answer the research goal? Answer Yes or No only")],
    instructions := DEVELOPER_MESSAGE, previous_response_id := none, tools := false }

/-- The query-regeneration gateway call issued inside the research loop
on a negative convergence decision, continuing from `prev_id`. -/
def regen_call (goal : String) (prev_id : String) (collected : List Artifact) : Call :=
  { model := MODEL,
    input := .msgs [("assistant", "Current data: " ++ dumps collected),
                    ("user", "This has not met the goal: " ++ goal ++
                             ". Write 5 other web searchs to achieve the goal")],
    instructions := DEVELOPER_MESSAGE, previous_response_id := some prev_id, tools := false }

/-- The gateway call issued by `generate_final_report` /
`generate_report`: no continuation token, evidence supplied inline. -/
def report_call (goal : String) (collected : List Artifact) : Call :=
  { model := MODEL,
    input := .msgs [("developer", "Write a complete and detail report about research goal: " ++
                                  goal ++ " Cite Sources inline using [n] and append a reference " ++
                                  "list mapping [n] to url"),
                    ("assistant", dumps collected)],
    instructions := DEVELOPER_MESSAGE, previous_response_id := none, tools := false }

/-- Embedding of `ask_clarifying_questions` (identical in both files):
one gateway call, then the reply is split on line breaks, each line is
stripped, and blank lines are discarded.  Returns the questions and the
response id. -/
def ask_clarifying_questions (env : Env) (topic : String) :
    (Except Err (List String × String)) × List Call :=
  let call := clarify_call topic
  let resp := env.create call
  let result : Except Err (List String × String) :=
    match firstText resp with
    | none => .error .indexError
    | some t => .ok (((pySplitLines t).map pyStrip).filter (fun q => q != ""), resp.id)
  (result, [call])

/-- Embedding of `create_plan` (app.py) / `generate_plan`
(streamlit_app.py): one gateway call continuing from `prev_id`; the
reply is parsed as JSON and the `goal` and `queries` fields are
returned untouched, together with the new response id.  There is no
validation of the field values. -/
def create_plan (env : Env) (topic : String) (questions answers : List String)
    (prev_id : String) : (Except Err (Json × Json × String)) × List Call :=
  let call := plan_call topic questions answers prev_id
  let resp := env.create call
  let result : Except Err (Json × Json × String) :=
    match firstText resp with
    | none => .error .indexError
    | some t =>
      match env.loads t with
      | none => .error .jsonDecodeError
      | some plan =>
        match plan.lookup "goal" with
        | none => .error .keyError
        | some g =>
          match plan.lookup "queries" with
          | none => .error .keyError
          | some qs => .ok (g, qs, resp.id)
  (result, [call])

/-- Embedding of `run_search` (identical in both files): one tool-enabled
gateway call continuing from `prev_id`; the record stores the query and,
under the key `resp_id`, the text `search_resp.output[1].content[0].text`
of the reply.  The double indexing is unguarded: a reply without a
second output block, or with an empty content list there, is an
`IndexError`. -/
def run_search (env : Env) (query : String) (prev_id : String) :
    (Except Err Artifact) × List Call :=
  let call := search_call query prev_id
  let resp := env.create call
  let result : Except Err Artifact :=
    match resp.output.get? 1 with
    | none => .error .indexError
    | some block =>
      match block.content.get? 0 with
      | none => .error .indexError
      | some item => .ok { query := query, resp_id := item.text }
  (result, [call])

/-- Embedding of `evaluate_progress` (app.py) / `evaluate`
(streamlit_app.py, same logic with permuted arguments): one gateway call
on the serialized collected set; the decision is
`"yes" in reply.lower()`, a case-insensitive substring test. -/
def evaluate_progress (env : Env) (goal : String) (collected : List Artifact) :
    (Except Err Bool) × List Call :=
  let call := eval_call goal collected
  let resp := env.create call
  let result : Except Err Bool :=
    match firstText resp with
    | none => .error .indexError
    | some t => .ok (containsSub "yes".data (pyLower t).data)
  (result, [call])

/-- Embedding of the query-regeneration step inside the research loop
(the `more` / `more_searches` call): one gateway call continuing from
`prev_id`; the reply is parsed as a JSON list of strings which becomes
the replacement query set. -/
def regenerate_queries (env : Env) (goal : String) (prev_id : String)
    (collected : List Artifact) : (Except Err (List String)) × List Call :=
  let call := regen_call goal prev_id collected
  let resp := env.create call
  let result : Except Err (List String) :=
    match firstText resp with
    | none => .error .indexError
    | some t =>
      match env.loads t with
      | none => .error .jsonDecodeError
      | some j =>
        match j.asStringList with
        | none => .error .typeError
        | some qs => .ok qs
  (result, [call])

/-- Embedding of the inner batch loop of `conduct_research` /
`perform_research` (`for q in queries: collected.append(run_search(...))`):
each query is searched in order, all rooted at the same `prev_id`; a
failing search aborts the batch after its call was issued. -/
def collect_searches (env : Env) (prev_id : String) : List String →
    (Except Err (List Artifact)) × List Call
  | [] => (.ok [], [])
  | q :: qs =>
    let r := run_search env q prev_id
    match r.1 with
    | .error e => (.error e, r.2)
    | .ok a =>
      let rest := collect_searches env prev_id qs
      match rest.1 with
      | .error e => (.error e, r.2 ++ rest.2)
      | .ok as => (.ok (a :: as), r.2 ++ rest.2)

/-- Embedding of the convergence loop body of `conduct_research` /
`perform_research`: run the batch, evaluate it; on a positive decision
return the collected set as-is; on a negative decision regenerate the
query set from the gateway, discard the collected set (`collected = []`)
and recurse.  The `fuel` argument models the unbounded
`for _ in itertools.count()`. -/
def conduct_research_loop (env : Env) (goal prev_id : String) : Nat → List String →
    (Except Err (List Artifact)) × List Call
  | 0, _ => (.error .fuelExhausted, [])
  | fuel + 1, queries =>
    let searched := collect_searches env prev_id queries
    match searched.1 with
    | .error e => (.error e, searched.2)
    | .ok collected =>
      let ev := evaluate_progress env goal collected
      match ev.1 with
      | .error e => (.error e, searched.2 ++ ev.2)
      | .ok true => (.ok collected, searched.2 ++ ev.2)
      | .ok false =>
        let more := regenerate_queries env goal prev_id collected
        match more.1 with
        | .error e => (.error e, searched.2 ++ ev.2 ++ more.2)
        | .ok queries2 =>
          let rest := conduct_research_loop env goal prev_id fuel queries2
          (rest.1, searched.2 ++ ev.2 ++ more.2 ++ rest.2)

/-- Embedding of `conduct_research` (app.py) / `perform_research`
(streamlit_app.py), matching the source signature order. -/
def conduct_research (env : Env) (goal : String) (queries : List String)
    (prev_id : String) (fuel : Nat) : (Except Err (List Artifact)) × List Call :=
  conduct_research_loop env goal prev_id fuel queries

/-- Embedding of `generate_final_report` (app.py) / `generate_report`
(streamlit_app.py): one gateway call, returning the reply text. -/
def generate_final_report (env : Env) (goal : String) (collected : List Artifact) :
    (Except Err String) × List Call :=
  let call := report_call goal collected
  let resp := env.create call
  let result : Except Err String :=
    match firstText resp with
    | none => .error .indexError
    | some t => .ok t
  (result, [call])

/-- Outcome of the research-button branch of `main`: either the
unanswered-questions warning (`st.warning` followed by `st.stop()`), or
a rendered report. -/
inductive RunOutcome where
  | warned
  | report (md : String)
deriving DecidableEq

/-- Embedding of the research-button branch of `main` in app.py (lines
167-187): the pre-research guard is `any(a.strip() == "" for a in
answers)`; if it fires, the user is warned and nothing else runs;
otherwise planning, research and reporting run in sequence.  Model
restriction: the Python code would interpolate a non-string `goal` or a
non-list-of-strings `queries` from the parsed plan into later prompts
by string coercion; the model requires the well-typed shape (the only
one the pipeline contemplates) and signals `typeError` otherwise. -/
def app_run_deep_research (env : Env) (topic : String) (questions answers : List String)
    (clarify_id : String) (fuel : Nat) : (Except Err RunOutcome) × List Call :=
  if answers.any (fun a => pyStrip a == "") then (.ok .warned, [])
  else
    let planned := create_plan env topic questions answers clarify_id
    match planned.1 with
    | .error e => (.error e, planned.2)
    | .ok (goalJ, queriesJ, goal_id) =>
      match goalJ.asString, queriesJ.asStringList with
      | some goal, some queries =>
        let researched := conduct_research env goal queries goal_id fuel
        match researched.1 with
        | .error e => (.error e, planned.2 ++ researched.2)
        | .ok collected =>
          let reported := generate_final_report env goal collected
          match reported.1 with
          | .error e => (.error e, planned.2 ++ researched.2 ++ reported.2)
          | .ok md => (.ok (.report md), planned.2 ++ researched.2 ++ reported.2)
      | _, _ => (.error .typeError, planned.2)

/-- Embedding of the research-button branch of `main` in
streamlit_app.py (lines 142-157): identical to the app.py flow except
that its pre-research guard is `if "" in answers:`, an exact-equality
membership test that does not strip whitespace. -/
def streamlit_run_deep_research (env : Env) (topic : String) (questions answers : List String)
    (clarify_id : String) (fuel : Nat) : (Except Err RunOutcome) × List Call :=
  if answers.contains "" then (.ok .warned, [])
  else
    let planned := create_plan env topic questions answers clarify_id
    match planned.1 with
    | .error e => (.error e, planned.2)
    | .ok (goalJ, queriesJ, goal_id) =>
      match goalJ.asString, queriesJ.asStringList with
      | some goal, some queries =>
        let researched := conduct_research env goal queries goal_id fuel
        match researched.1 with
        | .error e => (.error e, planned.2 ++ researched.2)
        | .ok collected =>
          let reported := generate_final_report env goal collected
          match reported.1 with
          | .error e => (.error e, planned.2 ++ researched.2 ++ reported.2)
          | .ok md => (.ok (.report md), planned.2 ++ researched.2 ++ reported.2)
      | _, _ => (.error .typeError, planned.2)

/-- Response with a single output block holding a single text item. -/
def textResponse (t : String) (rid : String) : Response :=
  { output := [{ content := [{ text := t }] }], id := rid }

/-- Response shaped like a tool-enabled search reply: a first
tool-invocation block with no text and a second block holding the
answer text. -/
def searchResponse (t : String) (rid : String) : Response :=
  { output := [{ content := [] }, { content := [{ text := t }] }], id := rid }

/-- Concrete environment for witnesses: search calls get a well-formed
two-block reply with text `"data"`, every other call is answered
`"Yes"`. -/
def envHappy : Env :=
  { create := fun c => if c.tools then searchResponse "data" "sid" else textResponse "Yes" "rid",
    loads := fun _ => none }

/-- Concrete environment whose (sole) reply parses as the plan
`goal = "G"`, `queries = ["q1"]`. -/
def envPlanDemo : Env :=
  { create := fun _ => textResponse "PLAN" "pid",
    loads := fun s =>
      if s = "PLAN" then some (.obj [("goal", .str "G"), ("queries", .arr [.str "q1"])])
      else none }

/-- Concrete environment whose reply parses as the degenerate plan with
an empty goal string and an empty query list. -/
def envEmptyPlan : Env :=
  { create := fun _ => textResponse "PLAN" "pid",
    loads := fun s =>
      if s = "PLAN" then some (.obj [("goal", .str ""), ("queries", .arr [])])
      else none }

/-- Concrete environment whose clarification reply consists of blank
lines only. -/
def envBlankClarify : Env :=
  { create := fun _ => textResponse "\n  \n" "cid",
    loads := fun _ => none }

/-- Concrete environment whose replies have only one output block, the
shape `run_search` cannot handle. -/
def envShortSearch : Env :=
  { create := fun _ => { output := [{ content := [{ text := "only block" }] }], id := "sid" },
    loads := fun _ => none }

/-- Concrete environment whose search reply carries answer text
`"Paris is the capital of France"` under response id `"resp-42"`. -/
def envSearchText : Env :=
  { create := fun _ => searchResponse "Paris is the capital of France" "resp-42",
    loads := fun _ => none }

/-! Helper lemmas. -/

/-- Correctness of the substring test: `containsSub pat l` holds exactly
when `pat` is a contiguous infix of `l`. -/
lemma containsSub_correct (pat : List Char) :
    ∀ l : List Char, containsSub pat l = true ↔ pat <:+: l := by
  intro l
  induction l with
  | nil =>
    simp only [containsSub, List.isEmpty_iff]
    constructor
    · intro h; simp [h]
    · intro h; simpa using List.eq_nil_of_infix_nil h
  | cons c rest ih =>
    simp only [containsSub, Bool.or_eq_true, List.infix_cons_iff, ih,
       List.isPrefixOf_iff_prefix]

/-- The single call `run_search` issues. -/
lemma run_search_trace (env : Env) (q p : String) :
    (run_search env q p).2 = [search_call q p] := rfl

/-- The trace of the inner batch loop consists of search calls only, all
rooted at the same `prev_id`. -/
lemma collect_searches_trace (env : Env) (prev_id : String) :
    ∀ qs : List String, ∃ ran : List String,
      (collect_searches env prev_id qs).2 = ran.map (fun q => search_call q prev_id) := by
  intro qs
  induction qs with
  | nil => exact ⟨[], rfl⟩
  | cons q rest ih =>
    obtain ⟨ran, hran⟩ := ih
    rcases hr : (run_search env q prev_id).1 with e | a
    · refine ⟨[q], ?_⟩
      simp only [collect_searches, hr]
      simp [run_search_trace]
    · rcases hrest : (collect_searches env prev_id rest).1 with e | as
      · refine ⟨q :: ran, ?_⟩
        simp only [collect_searches, hr, hrest]
        simp [run_search_trace, hran]
      · refine ⟨q :: ran, ?_⟩
        simp only [collect_searches, hr, hrest]
        simp [run_search_trace, hran]

/-- Every call in the batch-loop trace is a tool-enabled search call
continuing from `prev_id`. -/
lemma collect_searches_mem (env : Env) (prev_id : String) (qs : List String)
    (c : Call) (hc : c ∈ (collect_searches env prev_id qs).2) :
    ∃ q, c = search_call q prev_id := by
  obtain ⟨ran, hran⟩ := collect_searches_trace env prev_id qs
  rw [hran] at hc
  obtain ⟨q, _, hq⟩ := List.mem_map.mp hc
  exact ⟨q, hq.symm⟩

/-- The single call `evaluate_progress` issues. -/
lemma evaluate_progress_trace (env : Env) (goal : String) (collected : List Artifact) :
    (evaluate_progress env goal collected).2 = [eval_call goal collected] := rfl

/-- The single call the query-regeneration step issues. -/
lemma regenerate_queries_trace (env : Env) (goal prev_id : String) (collected : List Artifact) :
    (regenerate_queries env goal prev_id collected).2 = [regen_call goal prev_id collected] := rfl

/-- The single call `create_plan` issues. -/
lemma create_plan_trace (env : Env) (topic : String) (questions answers : List String)
    (prev_id : String) :
    (create_plan env topic questions answers prev_id).2 =
      [plan_call topic questions answers prev_id] := rfl

/-- The single call `generate_final_report` issues. -/
lemma generate_final_report_trace (env : Env) (goal : String) (collected : List Artifact) :
    (generate_final_report env goal collected).2 = [report_call goal collected] := rfl

/-- A successful return of the research loop is a collected set on which
the convergence evaluation is positive. -/
lemma conduct_research_loop_ok (env : Env) (goal prev_id : String) :
    ∀ (fuel : Nat) (queries : List String) (collected : List Artifact),
    (conduct_research_loop env goal prev_id fuel queries).1 = .ok collected →
    (evaluate_progress env goal collected).1 = .ok true := by
  intro fuel
  induction fuel with
  | zero =>
    intro queries collected h
    simp [conduct_research_loop] at h
  | succ n ih =>
    intro queries collected h
    rcases hcol : (collect_searches env prev_id queries).1 with e | cols
    · simp [conduct_research_loop, hcol] at h
    · rcases hev : (evaluate_progress env goal cols).1 with e | b
      · simp [conduct_research_loop, hcol, hev] at h
      · cases b with
        | false =>
          rcases hreg : (regenerate_queries env goal prev_id cols).1 with e | qs2
          · simp [conduct_research_loop, hcol, hev, hreg] at h
          · simp only [conduct_research_loop, hcol, hev, hreg] at h
            exact ih qs2 collected h
        | true =>
          simp [conduct_research_loop, hcol, hev] at h
          subst h
          exact hev

/-- Every tool-enabled call in the research-loop trace continues from
the root token `prev_id`. -/
lemma conduct_research_loop_tooled (env : Env) (goal prev_id : String) :
    ∀ (fuel : Nat) (queries : List String) (c : Call),
    c ∈ (conduct_research_loop env goal prev_id fuel queries).2 →
    c.tools = true → c.previous_response_id = some prev_id := by
  intro fuel
  induction fuel with
  | zero =>
    intro queries c hc _
    simp [conduct_research_loop] at hc
  | succ n ih =>
    intro queries c hc htools
    rcases hcol : (collect_searches env prev_id queries).1 with e | cols
    · simp only [conduct_research_loop, hcol] at hc
      obtain ⟨q, rfl⟩ := collect_searches_mem env prev_id queries c hc
      rfl
    · rcases hev : (evaluate_progress env goal cols).1 with e | b
      · simp only [conduct_research_loop, hcol, hev] at hc
        rcases List.mem_append.mp hc with h1 | h2
        · obtain ⟨q, rfl⟩ := collect_searches_mem env prev_id queries c h1
          rfl
        · rw [evaluate_progress_trace, List.mem_singleton] at h2
          subst h2
          simp [eval_call] at htools
      · cases b with
        | true =>
          simp only [conduct_research_loop, hcol, hev] at hc
          rcases List.mem_append.mp hc with h1 | h2
          · obtain ⟨q, rfl⟩ := collect_searches_mem env prev_id queries c h1
            rfl
          · rw [evaluate_progress_trace, List.mem_singleton] at h2
            subst h2
            simp [eval_call] at htools
        | false =>
          rcases hreg : (regenerate_queries env goal prev_id cols).1 with e | qs2
          · simp only [conduct_research_loop, hcol, hev, hreg] at hc
            rcases List.mem_append.mp hc with hc' | h3
            · rcases List.mem_append.mp hc' with h1 | h2
              · obtain ⟨q, rfl⟩ := collect_searches_mem env prev_id queries c h1
                rfl
              · rw [evaluate_progress_trace, List.mem_singleton] at h2
                subst h2
                simp [eval_call] at htools
            · rw [regenerate_queries_trace, List.mem_singleton] at h3
              subst h3
              rfl
          · simp only [conduct_research_loop, hcol, hev, hreg] at hc
            rcases List.mem_append.mp hc with hc' | h4
            · rcases List.mem_append.mp hc' with hc'' | h3
              · rcases List.mem_append.mp hc'' with h1 | h2
                · obtain ⟨q, rfl⟩ := collect_searches_mem env prev_id queries c h1
                  rfl
                · rw [evaluate_progress_trace, List.mem_singleton] at h2
                  subst h2
                  simp [eval_call] at htools
              · rw [regenerate_queries_trace, List.mem_singleton] at h3
                subst h3
                rfl
            · exact ih qs2 c h4 htools

/-- Every call of evaluate shape (no tools, no continuation token) in
the research-loop trace is an Evaluate call on a collected set that is
exactly the batch built by searching one query list, and that query
list is the initial one or the output of a query regeneration performed
on a negatively evaluated prior set. -/
lemma conduct_research_loop_eval_calls (env : Env) (goal prev_id : String) :
    ∀ (fuel : Nat) (queries : List String) (c : Call),
    c ∈ (conduct_research_loop env goal prev_id fuel queries).2 →
    c.tools = false → c.previous_response_id = none →
    ∃ qs batch, (collect_searches env prev_id qs).1 = .ok batch ∧
      c = eval_call goal batch ∧
      (qs = queries ∨ ∃ prior, (evaluate_progress env goal prior).1 = .ok false ∧
        (regenerate_queries env goal prev_id prior).1 = .ok qs) := by
  intro fuel
  induction fuel with
  | zero =>
    intro queries c hc _ _
    simp [conduct_research_loop] at hc
  | succ n ih =>
    intro queries c hc htools hprev
    rcases hcol : (collect_searches env prev_id queries).1 with e | cols
    · simp only [conduct_research_loop, hcol] at hc
      obtain ⟨q, rfl⟩ := collect_searches_mem env prev_id queries c hc
      simp [search_call] at htools
    · rcases hev : (evaluate_progress env goal cols).1 with e | b
      · simp only [conduct_research_loop, hcol, hev] at hc
        rcases List.mem_append.mp hc with h1 | h2
        · obtain ⟨q, rfl⟩ := collect_searches_mem env prev_id queries c h1
          simp [search_call] at htools
        · rw [evaluate_progress_trace, List.mem_singleton] at h2
          exact ⟨queries, cols, hcol, h2, Or.inl rfl⟩
      · cases b with
        | true =>
          simp only [conduct_research_loop, hcol, hev] at hc
          rcases List.mem_append.mp hc with h1 | h2
          · obtain ⟨q, rfl⟩ := collect_searches_mem env prev_id queries c h1
            simp [search_call] at htools
          · rw [evaluate_progress_trace, List.mem_singleton] at h2
            exact ⟨queries, cols, hcol, h2, Or.inl rfl⟩
        | false =>
          rcases hreg : (regenerate_queries env goal prev_id cols).1 with e | qs2
          · simp only [conduct_research_loop, hcol, hev, hreg] at hc
            rcases List.mem_append.mp hc with hc' | h3
            · rcases List.mem_append.mp hc' with h1 | h2
              · obtain ⟨q, rfl⟩ := collect_searches_mem env prev_id queries c h1
                simp [search_call] at htools
              · rw [evaluate_progress_trace, List.mem_singleton] at h2
                exact ⟨queries, cols, hcol, h2, Or.inl rfl⟩
            · rw [regenerate_queries_trace, List.mem_singleton] at h3
              subst h3
              simp [regen_call] at hprev
          · simp only [conduct_research_loop, hcol, hev, hreg] at hc
            rcases List.mem_append.mp hc with hc' | h4
            · rcases List.mem_append.mp hc' with hc'' | h3
              · rcases List.mem_append.mp hc'' with h1 | h2
                · obtain ⟨q, rfl⟩ := collect_searches_mem env prev_id queries c h1
                  simp [search_call] at htools
                · rw [evaluate_progress_trace, List.mem_singleton] at h2
                  exact ⟨queries, cols, hcol, h2, Or.inl rfl⟩
              · rw [regenerate_queries_trace, List.mem_singleton] at h3
                subst h3
                simp [regen_call] at hprev
            · obtain ⟨qs, batch, hb1, hb2, hb3⟩ := ih qs2 c h4 htools hprev
              refine ⟨qs, batch, hb1, hb2, Or.inr ?_⟩
              rcases hb3 with rfl | ⟨prior, hp1, hp2⟩
              · exact ⟨cols, hev, hreg⟩
              · exact ⟨prior, hp1, hp2⟩

/-- Success characterization of the Planning stage: `create_plan`
returns successfully exactly when the reply text parses as JSON and
both the `goal` and `queries` keys are present; the values are passed
through without any validation, and the returned token is the plan
response's id. -/
lemma create_plan_ok_iff (env : Env) (topic : String) (questions answers : List String)
    (prev_id : String) (g q : Json) (rid : String) :
    (create_plan env topic questions answers prev_id).1 = .ok (g, q, rid) ↔
    ∃ t j, firstText (env.create (plan_call topic questions answers prev_id)) = some t ∧
      env.loads t = some j ∧ j.lookup "goal" = some g ∧ j.lookup "queries" = some q ∧
      rid = (env.create (plan_call topic questions answers prev_id)).id := by
  constructor
  · intro h
    rcases hft : firstText (env.create (plan_call topic questions answers prev_id)) with _ | t
    · simp [create_plan, hft] at h
    · rcases hl : env.loads t with _ | j
      · simp [create_plan, hft, hl] at h
      · rcases hgk : j.lookup "goal" with _ | gv
        · simp [create_plan, hft, hl, hgk] at h
        · rcases hqk : j.lookup "queries" with _ | qv
          · simp [create_plan, hft, hl, hgk, hqk] at h
          · simp [create_plan, hft, hl, hgk, hqk] at h
            obtain ⟨h1, h2, h3⟩ := h
            subst h1
            subst h2
            exact ⟨t, j, by simp [hft], hl, hgk, hqk, h3.symm⟩
  · rintro ⟨t, j, hft, hl, hgk, hqk, hrid⟩
    subst hrid
    simp [create_plan, hft, hl, hgk, hqk]

/-- Unfolding of the `conduct_research` wrapper. -/
lemma conduct_research_eq (env : Env) (goal : String) (queries : List String)
    (prev_id : String) (fuel : Nat) :
    conduct_research env goal queries prev_id fuel =
      conduct_research_loop env goal prev_id fuel queries := rfl

/-- When the app.py research flow produces a report, the report call was
made on a collected set whose convergence evaluation was positive. -/
lemma app_flow_report (env : Env) (topic : String) (questions answers : List String)
    (clarify_id : String) (fuel : Nat) (md : String) :
    (app_run_deep_research env topic questions answers clarify_id fuel).1 = .ok (.report md) →
    ∃ goal collected, (evaluate_progress env goal collected).1 = .ok true ∧
      (generate_final_report env goal collected).1 = .ok md := by
  intro h
  by_cases hg : answers.any (fun a => pyStrip a == "")
  · simp [app_run_deep_research, hg] at h
  · rcases hp : (create_plan env topic questions answers clarify_id).1 with e | ⟨goalJ, queriesJ, goal_id⟩
    · simp [app_run_deep_research, hg, hp] at h
    · rcases hgs : goalJ.asString with _ | goal
      · simp [app_run_deep_research, hg, hp, hgs] at h
      · rcases hqs : queriesJ.asStringList with _ | queries
        · simp [app_run_deep_research, hg, hp, hgs, hqs] at h
        · rcases hr : (conduct_research env goal queries goal_id fuel).1 with e | collected
          · simp [app_run_deep_research, hg, hp, hgs, hqs, hr] at h
          · rcases hrep : (generate_final_report env goal collected).1 with e | md0
            · simp [app_run_deep_research, hg, hp, hgs, hqs, hr, hrep] at h
            · simp [app_run_deep_research, hg, hp, hgs, hqs, hr, hrep] at h
              subst h
              rw [conduct_research_eq] at hr
              exact ⟨goal, collected,
                conduct_research_loop_ok env goal goal_id fuel queries collected hr, hrep⟩

/-- Every tool-enabled call the app.py research flow makes continues
from the token produced by the Planning call. -/
lemma app_flow_tooled (env : Env) (topic : String) (questions answers : List String)
    (clarify_id : String) (fuel : Nat) (c : Call) :
    c ∈ (app_run_deep_research env topic questions answers clarify_id fuel).2 →
    c.tools = true →
    c.previous_response_id = some (env.create (plan_call topic questions answers clarify_id)).id := by
  intro hc htools
  by_cases hg : answers.any (fun a => pyStrip a == "")
  · simp [app_run_deep_research, hg] at hc
  · rcases hp : (create_plan env topic questions answers clarify_id).1 with e | ⟨goalJ, queriesJ, goal_id⟩
    · simp only [app_run_deep_research, hg, Bool.false_eq_true, if_false] at hc
      rw [hp] at hc
      simp only [create_plan_trace, List.mem_singleton] at hc
      subst hc
      simp [plan_call] at htools
    · obtain ⟨t, j, _, _, _, _, hrid⟩ :=
        (create_plan_ok_iff env topic questions answers clarify_id goalJ queriesJ goal_id).mp hp
      rcases hgs : goalJ.asString with _ | goal
      · simp only [app_run_deep_research, hg, Bool.false_eq_true, if_false] at hc
        rw [hp] at hc
        simp only [hgs] at hc
        simp only [create_plan_trace, List.mem_singleton] at hc
        subst hc
        simp [plan_call] at htools
      · rcases hqs : queriesJ.asStringList with _ | queries
        · simp only [app_run_deep_research, hg, Bool.false_eq_true, if_false] at hc
          rw [hp] at hc
          simp only [hgs, hqs] at hc
          simp only [create_plan_trace, List.mem_singleton] at hc
          subst hc
          simp [plan_call] at htools
        · rcases hr : (conduct_research env goal queries goal_id fuel).1 with e | collected
          · simp only [app_run_deep_research, hg, Bool.false_eq_true, if_false] at hc
            rw [hp] at hc
            simp only [hgs, hqs, hr] at hc
            rcases List.mem_append.mp hc with h1 | h2
            · rw [create_plan_trace, List.mem_singleton] at h1
              subst h1
              simp [plan_call] at htools
            · rw [conduct_research_eq] at h2
              rw [← hrid]
              exact conduct_research_loop_tooled env goal goal_id fuel queries c h2 htools
          · rcases hrep : (generate_final_report env goal collected).1 with e | md0
            · simp only [app_run_deep_research, hg, Bool.false_eq_true, if_false] at hc
              rw [hp] at hc
              simp only [hgs, hqs, hr, hrep] at hc
              rcases List.mem_append.mp hc with hc' | h3
              · rcases List.mem_append.mp hc' with h1 | h2
                · rw [create_plan_trace, List.mem_singleton] at h1
                  subst h1
                  simp [plan_call] at htools
                · rw [conduct_research_eq] at h2
                  rw [← hrid]
                  exact conduct_research_loop_tooled env goal goal_id fuel queries c h2 htools
              · rw [generate_final_report_trace, List.mem_singleton] at h3
                subst h3
                simp [report_call] at htools
            · simp only [app_run_deep_research, hg, Bool.false_eq_true, if_false] at hc
              rw [hp] at hc
              simp only [hgs, hqs, hr, hrep] at hc
              rcases List.mem_append.mp hc with hc' | h3
              · rcases List.mem_append.mp hc' with h1 | h2
                · rw [create_plan_trace, List.mem_singleton] at h1
                  subst h1
                  simp [plan_call] at htools
                · rw [conduct_research_eq] at h2
                  rw [← hrid]
                  exact conduct_research_loop_tooled env goal goal_id fuel queries c h2 htools
              · rw [generate_final_report_trace, List.mem_singleton] at h3
                subst h3
                simp [report_call] at htools

/-! Claim theorems. -/

/-- Claim C1: every returning execution of the research loop returns a
collected set on which the convergence evaluation is positive (the loop
exits only via a positive decision and returns that very set), and when
the app flow produces a report, the report call received a collected
set whose evaluation was positive. -/
theorem research_loop_returns_satisfying_set :
    (∀ (env : Env) (goal : String) (queries : List String) (prev_id : String) (fuel : Nat)
       (collected : List Artifact),
       (conduct_research env goal queries prev_id fuel).1 = .ok collected →
       (evaluate_progress env goal collected).1 = .ok true) ∧
    (∀ (env : Env) (topic : String) (questions answers : List String) (clarify_id : String)
       (fuel : Nat) (md : String),
       (app_run_deep_research env topic questions answers clarify_id fuel).1 = .ok (.report md) →
       ∃ goal collected, (evaluate_progress env goal collected).1 = .ok true ∧
         (generate_final_report env goal collected).1 = .ok md) := by
  constructor
  · intro env goal queries prev_id fuel collected h
    rw [conduct_research_eq] at h
    exact conduct_research_loop_ok env goal prev_id fuel queries collected h
  · exact app_flow_report

/-- Witness for C1 on a concrete one-iteration run. -/
theorem research_loop_returns_satisfying_set_witness :
    (evaluate_progress envHappy "g" [Artifact.mk "q1" "data"]).1 = .ok true :=
  research_loop_returns_satisfying_set.1 envHappy "g" ["q1"] "root" 1
    [Artifact.mk "q1" "data"] (by rfl)

/-- Claim C2: every Evaluate call made by the research loop (the calls
with no tools and no continuation token) submits a collected set that
is exactly the batch produced by searching one query list — zero
carry-over from any earlier, discarded batch — and that query list is
the initial one or the replacement set regenerated after a negative
decision. -/
theorem evaluate_calls_see_single_fresh_batch :
    ∀ (env : Env) (goal : String) (queries : List String) (prev_id : String) (fuel : Nat)
      (c : Call), c ∈ (conduct_research env goal queries prev_id fuel).2 →
      c.tools = false → c.previous_response_id = none →
      ∃ qs batch, (collect_searches env prev_id qs).1 = .ok batch ∧
        c = eval_call goal batch ∧
        (qs = queries ∨ ∃ prior, (evaluate_progress env goal prior).1 = .ok false ∧
          (regenerate_queries env goal prev_id prior).1 = .ok qs) := by
  intro env goal queries prev_id fuel c hc
  rw [conduct_research_eq] at hc
  exact conduct_research_loop_eval_calls env goal prev_id fuel queries c hc

/-- Witness for C2 at the evaluate call of a concrete run. -/
theorem evaluate_calls_see_single_fresh_batch_witness :
    ∃ qs batch, (collect_searches envHappy "root" qs).1 = .ok batch ∧
      eval_call "g" [Artifact.mk "q1" "data"] = eval_call "g" batch ∧
      (qs = ["q1"] ∨ ∃ prior, (evaluate_progress envHappy "g" prior).1 = .ok false ∧
        (regenerate_queries envHappy "g" "root" prior).1 = .ok qs) :=
  evaluate_calls_see_single_fresh_batch envHappy "g" ["q1"] "root" 1
    (eval_call "g" [Artifact.mk "q1" "data"]) (by decide) (by rfl) (by rfl)

/-- Claim C3: every tool-enabled search call the research loop makes
continues from the loop's root token, and in the app flow that root is
exactly the Planning response's id — sibling searches are never chained
to one another. -/
theorem search_calls_share_planning_token :
    (∀ (env : Env) (goal : String) (queries : List String) (prev_id : String) (fuel : Nat)
       (c : Call), c ∈ (conduct_research env goal queries prev_id fuel).2 → c.tools = true →
       c.previous_response_id = some prev_id) ∧
    (∀ (env : Env) (topic : String) (questions answers : List String) (clarify_id : String)
       (fuel : Nat) (c : Call),
       c ∈ (app_run_deep_research env topic questions answers clarify_id fuel).2 →
       c.tools = true →
       c.previous_response_id =
         some (env.create (plan_call topic questions answers clarify_id)).id) := by
  constructor
  · intro env goal queries prev_id fuel c hc ht
    rw [conduct_research_eq] at hc
    exact conduct_research_loop_tooled env goal prev_id fuel queries c hc ht
  · exact app_flow_tooled

/-- Witness for C3 at the search call of a concrete run. -/
theorem search_calls_share_planning_token_witness :
    (search_call "q1" "root").previous_response_id = some "root" :=
  search_calls_share_planning_token.1 envHappy "g" ["q1"] "root" 1
    (search_call "q1" "root") (by decide) (by rfl)

/-- Claim C4: the Evaluate operation returns a positive decision exactly
when the lower-cased reply text contains the substring yes; any reply
without it, hedged or not, yields a negative decision. -/
theorem evaluate_accepts_iff_yes_substring (env : Env) (goal : String)
    (collected : List Artifact) (t : String)
    (hft : firstText (env.create (eval_call goal collected)) = some t) :
    (evaluate_progress env goal collected).1 = .ok true ↔
      ∃ pre post : String, pyLower t = pre ++ "yes" ++ post := by
  have hres : (evaluate_progress env goal collected).1 =
      .ok (containsSub "yes".data (pyLower t).data) := by
    simp [evaluate_progress, hft]
  rw [hres]
  constructor
  · intro h
    have hb : containsSub "yes".data (pyLower t).data = true := by simpa using h
    obtain ⟨s, u, hsu⟩ := (containsSub_correct _ _).mp hb
    refine ⟨⟨s⟩, ⟨u⟩, ?_⟩
    apply String.ext
    simpa [String.data_append] using hsu.symm
  · rintro ⟨pre, post, hsplit⟩
    have hb : containsSub "yes".data (pyLower t).data = true := by
      apply (containsSub_correct _ _).mpr
      refine ⟨pre.data, post.data, ?_⟩
      rw [hsplit]
      simp [String.data_append]
    simp [hb]

/-- Witness for C4 on a concrete accepting reply. -/
theorem evaluate_accepts_iff_yes_substring_witness :
    (evaluate_progress envHappy "g" []).1 = .ok true :=
  (evaluate_accepts_iff_yes_substring envHappy "g" [] "Yes" (by rfl)).mpr
    ⟨"", "", by rfl⟩

/-- Counterexample to C5 as stated: with a gateway reply parsing to an
empty goal string and an empty query list, the Planning stage returns
the partially-populated plan successfully instead of failing. -/
theorem plan_returns_empty_fields_counterexample :
    (create_plan envEmptyPlan "t" ["q"] ["a"] "cid").1 = .ok (.str "", .arr [], "pid") := by
  rfl

/-- Claim C5 (amended): the Planning stage fails with a structural error
exactly when the reply does not parse as JSON or lacks the goal or
queries field; whenever both fields are present their values are
returned entirely unvalidated — an empty goal or an empty query list is
passed through, not rejected. -/
theorem plan_fields_passed_through_unvalidated (env : Env) (topic : String)
    (questions answers : List String) (prev_id : String) (g q : Json) (rid : String) :
    (create_plan env topic questions answers prev_id).1 = .ok (g, q, rid) ↔
    ∃ t j, firstText (env.create (plan_call topic questions answers prev_id)) = some t ∧
      env.loads t = some j ∧ j.lookup "goal" = some g ∧ j.lookup "queries" = some q ∧
      rid = (env.create (plan_call topic questions answers prev_id)).id :=
  create_plan_ok_iff env topic questions answers prev_id g q rid

/-- Counterexample to C6 as stated: with one question and zero answers
(mismatched lengths) the Planning stage does not reject the inputs: it
issues its Gateway call and returns the plan. -/
theorem plan_no_arity_check_counterexample :
    ["q1"].length ≠ ([] : List String).length ∧
    (create_plan envPlanDemo "t" ["q1"] [] "cid").2 = [plan_call "t" ["q1"] [] "cid"] ∧
    (create_plan envPlanDemo "t" ["q1"] [] "cid").1 = .ok (.str "G", .arr [.str "q1"], "pid") :=
  ⟨by decide, rfl, by rfl⟩

/-- Claim C6 (amended): the Planning stage performs no arity validation
at all: for every questions/answers pair, matching or not, it issues
exactly one Gateway call — nothing is rejected before the call. -/
theorem plan_always_issues_one_call (env : Env) (topic : String)
    (questions answers : List String) (prev_id : String) :
    (create_plan env topic questions answers prev_id).2 =
      [plan_call topic questions answers prev_id] :=
  create_plan_trace env topic questions answers prev_id

/-- Counterexample to C7 as stated: on a reply with no non-blank line,
the Clarification stage does not fail with a content-format error — it
silently returns the empty question list. -/
theorem clarify_blank_reply_silent_counterexample :
    (ask_clarifying_questions envBlankClarify "t").1 = .ok ([], "cid") := by rfl

/-- Claim C7 (amended): the Clarification stage returns a question list
with no blank entries, each entry being a whitespace-stripped line of
the reply verbatim; but a reply with no non-blank line is tolerated
silently, producing an empty question list instead of an error. -/
theorem clarify_questions_shape (env : Env) (topic : String) (t : String)
    (qs : List String) (rid : String)
    (hft : firstText (env.create (clarify_call topic)) = some t)
    (hok : (ask_clarifying_questions env topic).1 = .ok (qs, rid)) :
    (∀ q ∈ qs, q ≠ "" ∧ ∃ line ∈ pySplitLines t, q = pyStrip line) ∧
    ((∀ line ∈ pySplitLines t, pyStrip line = "") → qs = []) := by
  have hqs : qs = ((pySplitLines t).map pyStrip).filter (fun q => q != "") := by
    simp [ask_clarifying_questions, hft] at hok
    exact hok.1.symm
  subst hqs
  constructor
  · intro q hq
    obtain ⟨hmem, hbool⟩ := List.mem_filter.mp hq
    refine ⟨by simpa using hbool, ?_⟩
    obtain ⟨line, hline, hl⟩ := List.mem_map.mp hmem
    exact ⟨line, hline, hl.symm⟩
  · intro hall
    apply List.filter_eq_nil_iff.mpr
    intro a ha
    obtain ⟨line, hline, hl⟩ := List.mem_map.mp ha
    simp [← hl, hall line hline]

/-- Witness for C7 (amended) on a concrete one-line reply. -/
theorem clarify_questions_shape_witness :
    (∀ q ∈ ["Yes"], q ≠ "" ∧ ∃ line ∈ pySplitLines "Yes", q = pyStrip line) ∧
    ((∀ line ∈ pySplitLines "Yes", pyStrip line = "") → ["Yes"] = []) :=
  clarify_questions_shape envHappy "t" "Yes" ["Yes"] "rid" (by rfl) (by rfl)

/-- Claim C8: contrary to the stated data model, the record built by
`run_search` stores under its reference field the reply's answer text
(`output[1].content[0].text`), not the response's continuation token
(its id); and that stored text is then serialized by `json.dumps` into
the assistant message content of the Evaluate call — submitted as
content, not as a continuation token. -/
theorem run_search_stores_reply_text :
    (run_search envSearchText "capital of France" "root").1 =
      .ok (Artifact.mk "capital of France" "Paris is the capital of France") ∧
    (Artifact.mk "capital of France" "Paris is the capital of France").resp_id ≠
      (envSearchText.create (search_call "capital of France" "root")).id ∧
    containsSub "Paris is the capital of France".data
      (dumps [Artifact.mk "capital of France" "Paris is the capital of France"]).data = true ∧
    (eval_call "g" [Artifact.mk "capital of France" "Paris is the capital of France"]).input =
      .msgs [("developer", "Research goal: g"),
             ("assistant", dumps [Artifact.mk "capital of France" "Paris is the capital of France"]),
             ("user", "Does this information answer the research goal? Answer Yes or No only")] :=
  ⟨by rfl, by decide, by decide, rfl⟩

/-- Counterexample to C9 as stated: a whitespace-only answer passes the
streamlit_app.py pre-research guard — the flow is not the warning and
two Gateway calls (Planning and a search) are issued. -/
theorem streamlit_guard_misses_whitespace_counterexample :
    (streamlit_run_deep_research envPlanDemo "t" ["q?"] [" "] "cid" 1).1 = .error .indexError ∧
    (streamlit_run_deep_research envPlanDemo "t" ["q?"] [" "] "cid" 1).2 =
      [plan_call "t" ["q?"] [" "] "cid", search_call "q1" "pid"] :=
  ⟨by rfl, by rfl⟩

/-- Claim C9 (amended): the app.py guard strips answers, so a list with
an empty or whitespace-only answer is classified unanswered (warning,
no Gateway call); the streamlit_app.py guard tests exact equality with
the empty string, so it warns on empty answers but lets whitespace-only
answers through. -/
theorem answers_guard_behaviour :
    (∀ (env : Env) (topic : String) (questions answers : List String) (clarify_id : String)
       (fuel : Nat), (∃ a ∈ answers, pyStrip a = "") →
       app_run_deep_research env topic questions answers clarify_id fuel = (.ok .warned, [])) ∧
    (∀ (env : Env) (topic : String) (questions answers : List String) (clarify_id : String)
       (fuel : Nat), "" ∈ answers →
       streamlit_run_deep_research env topic questions answers clarify_id fuel =
         (.ok .warned, [])) := by
  constructor
  · rintro env topic questions answers clarify_id fuel ⟨a, ha, hstrip⟩
    have hany : answers.any (fun a => pyStrip a == "") = true :=
      List.any_eq_true.mpr ⟨a, ha, by simp [hstrip]⟩
    simp [app_run_deep_research, hany]
  · intro env topic questions answers clarify_id fuel hmem
    have hcont : answers.contains "" = true := List.elem_iff.mpr hmem
    simp only [streamlit_run_deep_research, hcont]
    simp

/-- Witness for C9 (amended): the app.py guard fires on a
whitespace-only answer. -/
theorem answers_guard_behaviour_witness :
    app_run_deep_research envHappy "t" ["q"] [" "] "c" 1 = (.ok .warned, []) :=
  answers_guard_behaviour.1 envHappy "t" ["q"] [" "] "c" 1 ⟨" ", by decide, by rfl⟩

/-- Claim C10: `run_search` indexes the reply unconditionally: whenever
the search reply has fewer than two output blocks it fails with the
index error, and in general it fails with the index error exactly when
the second output block or its first content item is missing — there is
no guard producing an artifact in those cases. -/
theorem run_search_unguarded_indexing (env : Env) (query prev_id : String) :
    ((env.create (search_call query prev_id)).output.length < 2 →
      (run_search env query prev_id).1 = .error .indexError) ∧
    ((run_search env query prev_id).1 = .error .indexError ↔
      ((env.create (search_call query prev_id)).output.get? 1).bind
        (fun b => b.content.get? 0) = none) := by
  constructor
  · intro hlen
    have h1 : (env.create (search_call query prev_id)).output.get? 1 = none :=
      List.get?_eq_none.mpr (by omega)
    simp only [run_search, h1]
  · constructor
    · intro h
      rcases h1 : (env.create (search_call query prev_id)).output.get? 1 with _ | block
      · rfl
      · rcases h2 : block.content.get? 0 with _ | item
        · exact h2
        · simp only [run_search, h1, h2] at h
          simp at h
    · intro h
      rcases h1 : (env.create (search_call query prev_id)).output.get? 1 with _ | block
      · simp only [run_search, h1]
      · rcases h2 : block.content.get? 0 with _ | item
        · simp only [run_search, h1, h2]
        · rw [h1] at h
          have hb : block.content.get? 0 = none := h
          rw [h2] at hb
          simp at hb

/-- Witness for C10 on a one-block reply. -/
theorem run_search_unguarded_indexing_witness :
    (run_search envShortSearch "q" "p").1 = .error .indexError :=
  (run_search_unguarded_indexing envShortSearch "q" "p").1 (by decide)
